/-
Verification of the context-rot-detection quality-estimation engine.

Shallow embedding of the TypeScript source:
  - degradation-curves.ts  (curated catalog, heuristic profiles, quality
    multiplier, retrieval-accuracy estimate),
  - quality-estimation.ts  (risk bucketing, composite health score, the
    assessHealth assessment function),
  - recommendations.ts     (prioritized recommendation generator),
  - huggingface-resolver.ts (profile resolution with caching and
    in-flight request deduplication).

JavaScript numbers are modelled as rationals where the code only adds,
multiplies, divides and rounds, and as reals where the degradation curve
uses a fractional power.  Math.round x is modelled as the floor of
x + 1/2, which agrees with JavaScript on all values relevant here.
-/

import Mathlib

namespace ContextRot

/-- JavaScript Math.round on rationals: the floor of x + 1/2. -/
def mathRound (x : ℚ) : ℤ := ⌊x + 1/2⌋

/-- JavaScript Math.round on reals (used where the computation involves
the real-valued degradation curve). -/
noncomputable def mathRoundR (x : ℝ) : ℤ := ⌊x + 1/2⌋

/-- The ModelProfile interface of degradation-curves.ts.  Numeric fields
are rationals standing for JavaScript numbers. -/
structure ModelProfile where
  name : String
  maxTokens : ℚ
  degradationOnset : ℚ
  dangerZone : ℚ
  middleLossCoefficient : ℚ
  baseRetrievalAccuracy : ℚ
deriving DecidableEq

/-- The designated fallback entry of MODEL_PROFILES (key "other"). -/
def OTHER_PROFILE : ModelProfile :=
  { name := "Unknown Model", maxTokens := 128000, degradationOnset := 80000,
    dangerZone := 100000, middleLossCoefficient := 0.40, baseRetrievalAccuracy := 0.90 }

/-- The curated catalog MODEL_PROFILES of degradation-curves.ts, as an
association list in source order (the record key comes first). -/
def MODEL_PROFILES : List (String × ModelProfile) := [
  ("claude-3.5-sonnet",
    { name := "Claude 3.5 Sonnet", maxTokens := 200000, degradationOnset := 120000,
      dangerZone := 152000, middleLossCoefficient := 0.35, baseRetrievalAccuracy := 0.95 }),
  ("claude-3.7-sonnet",
    { name := "Claude 3.7 Sonnet", maxTokens := 200000, degradationOnset := 130000,
      dangerZone := 160000, middleLossCoefficient := 0.30, baseRetrievalAccuracy := 0.96 }),
  ("claude-sonnet-4",
    { name := "Claude Sonnet 4", maxTokens := 200000, degradationOnset := 135000,
      dangerZone := 165000, middleLossCoefficient := 0.28, baseRetrievalAccuracy := 0.96 }),
  ("claude-opus-4",
    { name := "Claude Opus 4", maxTokens := 200000, degradationOnset := 140000,
      dangerZone := 170000, middleLossCoefficient := 0.25, baseRetrievalAccuracy := 0.97 }),
  ("claude-opus-4-5",
    { name := "Claude Opus 4.5", maxTokens := 200000, degradationOnset := 145000,
      dangerZone := 175000, middleLossCoefficient := 0.22, baseRetrievalAccuracy := 0.97 }),
  ("claude-haiku-3.5",
    { name := "Claude Haiku 3.5", maxTokens := 200000, degradationOnset := 100000,
      dangerZone := 130000, middleLossCoefficient := 0.40, baseRetrievalAccuracy := 0.92 }),
  ("gpt-4o",
    { name := "GPT-4o", maxTokens := 128000, degradationOnset := 80000,
      dangerZone := 105000, middleLossCoefficient := 0.40, baseRetrievalAccuracy := 0.93 }),
  ("gpt-4o-mini",
    { name := "GPT-4o Mini", maxTokens := 128000, degradationOnset := 70000,
      dangerZone := 95000, middleLossCoefficient := 0.45, baseRetrievalAccuracy := 0.90 }),
  ("gpt-4.1",
    { name := "GPT-4.1", maxTokens := 1000000, degradationOnset := 200000,
      dangerZone := 500000, middleLossCoefficient := 0.38, baseRetrievalAccuracy := 0.94 }),
  ("gpt-4.1-mini",
    { name := "GPT-4.1 Mini", maxTokens := 1000000, degradationOnset := 180000,
      dangerZone := 450000, middleLossCoefficient := 0.42, baseRetrievalAccuracy := 0.91 }),
  ("o3",
    { name := "o3", maxTokens := 200000, degradationOnset := 120000,
      dangerZone := 160000, middleLossCoefficient := 0.30, baseRetrievalAccuracy := 0.95 }),
  ("o4-mini",
    { name := "o4-mini", maxTokens := 200000, degradationOnset := 110000,
      dangerZone := 150000, middleLossCoefficient := 0.35, baseRetrievalAccuracy := 0.93 }),
  ("gemini-2.0-flash",
    { name := "Gemini 2.0 Flash", maxTokens := 1000000, degradationOnset := 200000,
      dangerZone := 500000, middleLossCoefficient := 0.50, baseRetrievalAccuracy := 0.88 }),
  ("gemini-2.5-pro",
    { name := "Gemini 2.5 Pro", maxTokens := 1000000, degradationOnset := 250000,
      dangerZone := 600000, middleLossCoefficient := 0.42, baseRetrievalAccuracy := 0.92 }),
  ("gemini-2.5-flash",
    { name := "Gemini 2.5 Flash", maxTokens := 1000000, degradationOnset := 220000,
      dangerZone := 520000, middleLossCoefficient := 0.48, baseRetrievalAccuracy := 0.89 }),
  ("other", OTHER_PROFILE)]

/-- All known model identifiers, excluding "other" (KNOWN_MODELS). -/
def KNOWN_MODELS : List String :=
  (MODEL_PROFILES.map Prod.fst).filter (fun k => k != "other")

/-- getModelProfile: catalog lookup with the "other" fallback
(MODEL_PROFILES[model] ?? MODEL_PROFILES["other"]). -/
def getModelProfile (model : String) : ModelProfile :=
  (List.lookup model MODEL_PROFILES).getD OTHER_PROFILE

/-- generateHeuristicProfile: conservative profile from a context window
size (onset at 65 percent, danger zone at 80 percent, rounded). -/
def generateHeuristicProfile (name : String) (maxTokens : ℚ) : ModelProfile :=
  { name := name, maxTokens := maxTokens,
    degradationOnset := (mathRound (maxTokens * 0.65) : ℚ),
    dangerZone := (mathRound (maxTokens * 0.80) : ℚ),
    middleLossCoefficient := 0.40, baseRetrievalAccuracy := 0.90 }

/-- calculateQualityMultiplier: 1.0 up to the degradation onset, floor of
0.2 from maxTokens on, and in between max(0.2, 1 - progress^1.5 * 0.8)
where progress is the position inside the degradation range. -/
noncomputable def calculateQualityMultiplier (tokenCount : ℝ) (profile : ModelProfile) : ℝ :=
  if tokenCount ≤ (profile.degradationOnset : ℝ) then 1
  else if (profile.maxTokens : ℝ) ≤ tokenCount then 0.2
  else
    let range : ℝ := (profile.maxTokens : ℝ) - (profile.degradationOnset : ℝ)
    let progress : ℝ := (tokenCount - (profile.degradationOnset : ℝ)) / range
    let degradation : ℝ := progress ^ (1.5 : ℝ)
    max 0.2 (1 - degradation * 0.8)

/-- estimateRetrievalAccuracy: base accuracy scaled by the quality
multiplier, minus the lost-in-the-middle penalty past the onset, with a
floor of 0.1. -/
noncomputable def estimateRetrievalAccuracy (tokenCount : ℝ) (profile : ModelProfile) : ℝ :=
  let qualityMult := calculateQualityMultiplier tokenCount profile
  let middlePenalty : ℝ :=
    if (profile.degradationOnset : ℝ) < tokenCount then
      (profile.middleLossCoefficient : ℝ) *
        ((tokenCount - (profile.degradationOnset : ℝ)) /
          ((profile.maxTokens : ℝ) - (profile.degradationOnset : ℝ)))
    else 0
  max 0.1 ((profile.baseRetrievalAccuracy : ℝ) * qualityMult - middlePenalty)

/-! Quality-estimation engine (quality-estimation.ts). -/

/-- RiskLevel of quality-estimation.ts. -/
inductive RiskLevel where
  | low | moderate | high | critical
deriving DecidableEq

/-- RetrievalStatus of quality-estimation.ts. -/
inductive RetrievalStatus where
  | excellent | good | degrading | poor
deriving DecidableEq

/-- HealthStatus of quality-estimation.ts. -/
inductive HealthStatus where
  | healthy | warning | danger
deriving DecidableEq

/-- QualityEstimate record. -/
structure QualityEstimate where
  retrieval_accuracy : RetrievalStatus
  middle_content_risk : RiskLevel
  estimated_hallucination_risk : RiskLevel
deriving DecidableEq

/-- TokenUtilization record. -/
structure TokenUtilization where
  current : ℚ
  max_effective : ℚ
  percentage : ℚ
  danger_zone_starts_at : ℚ
deriving DecidableEq

/-- SessionFatigue record. -/
structure SessionFatigue where
  tool_call_burden : RiskLevel
  session_length_risk : RiskLevel
  recommendation : String
deriving DecidableEq

/-- HealthAssessment record. -/
structure HealthAssessment where
  health_score : ℤ
  status : HealthStatus
  token_utilization : TokenUtilization
  quality_estimate : QualityEstimate
  session_fatigue : SessionFatigue
deriving DecidableEq

/-- AssessmentInput record; the optional fields are Option values with
the same ?? 0 defaulting as the source. -/
structure AssessmentInput where
  tokenCount : ℚ
  model : String
  sessionDurationMinutes : Option ℚ := none
  toolCallsCount : Option ℚ := none
  contextSummary : Option String := none

/-- calculateMiddleContentRisk: lost-in-the-middle risk from the ratio
tokenCount / maxTokens. -/
def calculateMiddleContentRisk (tokenCount : ℚ) (profile : ModelProfile) : RiskLevel :=
  let ratio := tokenCount / profile.maxTokens
  if ratio < 0.3 then .low
  else if ratio < 0.5 then .moderate
  else if ratio < 0.75 then .high
  else .critical

/-- calculateHallucinationRisk: retrieval accuracy minus a tool-burden
penalty, bucketed. -/
noncomputable def calculateHallucinationRisk
    (retrievalAccuracy : ℝ) (toolCallBurden : RiskLevel) : RiskLevel :=
  let toolPenalty : ℝ :=
    if toolCallBurden = .critical then 0.15
    else if toolCallBurden = .high then 0.1
    else if toolCallBurden = .moderate then 0.05
    else 0
  let adjustedAccuracy := retrievalAccuracy - toolPenalty
  if 0.85 < adjustedAccuracy then .low
  else if 0.7 < adjustedAccuracy then .moderate
  else if 0.5 < adjustedAccuracy then .high
  else .critical

/-- calculateToolCallBurden: four buckets on the tool-call count. -/
def calculateToolCallBurden (toolCallsCount : ℚ) : RiskLevel :=
  if toolCallsCount ≤ 5 then .low
  else if toolCallsCount ≤ 15 then .moderate
  else if toolCallsCount ≤ 30 then .high
  else .critical

/-- calculateSessionLengthRisk: four buckets on the session duration. -/
def calculateSessionLengthRisk (durationMinutes : ℚ) : RiskLevel :=
  if durationMinutes ≤ 15 then .low
  else if durationMinutes ≤ 45 then .moderate
  else if durationMinutes ≤ 90 then .high
  else .critical

/-- retrievalAccuracyToStatus: label for a numeric accuracy. -/
noncomputable def retrievalAccuracyToStatus (accuracy : ℝ) : RetrievalStatus :=
  if 0.9 < accuracy then .excellent
  else if 0.75 < accuracy then .good
  else if 0.55 < accuracy then .degrading
  else .poor

/-- sessionFatigueRecommendation: advisory text from the two fatigue
risk levels. -/
def sessionFatigueRecommendation (toolBurden : RiskLevel) (sessionRisk : RiskLevel) : String :=
  if toolBurden = .critical ∨ sessionRisk = .critical then
    "Session is critically fatigued. Strongly recommend starting a fresh session or performing aggressive context compaction immediately."
  else if toolBurden = .high ∨ sessionRisk = .high then
    "Significant session fatigue detected. Consider summarizing completed work and removing stale context before continuing."
  else if toolBurden = .moderate ∨ sessionRisk = .moderate then
    "Consider breaking into sub-tasks if complexity increases."
  else
    "Session fatigue is low. Continue as normal."

/-- computeHealthScore: round(clamp to 0..100 of
quality * 40 + retrieval * 25 + toolScore + sessionScore). -/
noncomputable def computeHealthScore (qualityMultiplier retrievalAccuracy : ℝ)
    (toolCallsCount sessionDurationMinutes : ℚ) : ℤ :=
  let tokenScore : ℝ := qualityMultiplier * 40
  let retrievalScore : ℝ := retrievalAccuracy * 25
  let toolScore : ℝ :=
    if toolCallsCount ≤ 5 then 20
    else if toolCallsCount ≤ 15 then 15
    else if toolCallsCount ≤ 30 then 8
    else 3
  let sessionScore : ℝ :=
    if sessionDurationMinutes ≤ 15 then 15
    else if sessionDurationMinutes ≤ 45 then 12
    else if sessionDurationMinutes ≤ 90 then 6
    else 2
  mathRoundR (max 0 (min 100 (tokenScore + retrievalScore + toolScore + sessionScore)))

/-- scoreToStatus: healthy from 70, warning from 40, danger below. -/
def scoreToStatus (score : ℤ) : HealthStatus :=
  if 70 ≤ score then .healthy
  else if 40 ≤ score then .warning
  else .danger

/-- assessHealth, the main assessment function, as a pure function of the
input and the resolved profile.  In the source the profile is obtained
first, from the optional resolver or getModelProfile; the resolver is
modelled separately below, so the resolved profile is a parameter here. -/
noncomputable def assessHealth (input : AssessmentInput) (profile : ModelProfile) :
    HealthAssessment :=
  let toolCallsCount := input.toolCallsCount.getD 0
  let sessionDurationMinutes := input.sessionDurationMinutes.getD 0
  let qualityMultiplier := calculateQualityMultiplier (input.tokenCount : ℝ) profile
  let retrievalAccuracy := estimateRetrievalAccuracy (input.tokenCount : ℝ) profile
  let toolBurden := calculateToolCallBurden toolCallsCount
  let sessionRisk := calculateSessionLengthRisk sessionDurationMinutes
  let healthScore := computeHealthScore qualityMultiplier retrievalAccuracy
    toolCallsCount sessionDurationMinutes
  let middleRisk := calculateMiddleContentRisk input.tokenCount profile
  let hallucinationRisk := calculateHallucinationRisk retrievalAccuracy toolBurden
  { health_score := healthScore,
    status := scoreToStatus healthScore,
    token_utilization :=
      { current := input.tokenCount,
        max_effective := profile.dangerZone,
        percentage := (mathRound (input.tokenCount / profile.dangerZone * 1000) : ℚ) / 10,
        danger_zone_starts_at := profile.dangerZone },
    quality_estimate :=
      { retrieval_accuracy := retrievalAccuracyToStatus retrievalAccuracy,
        middle_content_risk := middleRisk,
        estimated_hallucination_risk := hallucinationRisk },
    session_fatigue :=
      { tool_call_burden := toolBurden,
        session_length_risk := sessionRisk,
        recommendation := sessionFatigueRecommendation toolBurden sessionRisk } }

/-! Recommendation engine (recommendations.ts). -/

/-- Recommendation priority. -/
inductive Priority where
  | critical | high | medium | low
deriving DecidableEq

/-- The Recommendation record.  The estimated quality gains are integer
constants in the source, so the gain is an integer here. -/
structure Recommendation where
  priority : Priority
  action : String
  reason : String
  estimated_quality_gain : ℤ
deriving DecidableEq

/-- riskToPriority: critical to critical, high to high, moderate to
medium, low to low. -/
def riskToPriority (risk : RiskLevel) : Priority :=
  match risk with
  | .critical => .critical
  | .high => .high
  | .moderate => .medium
  | .low => .low

/-- priorityWeight: critical 0, high 1, medium 2, low 3. -/
def priorityWeight (p : Priority) : ℤ :=
  match p with
  | .critical => 0
  | .high => 1
  | .medium => 2
  | .low => 3

/-- The sort comparator of generateRecommendations: priority weight
difference, ties broken by descending quality gain. -/
def compareRecs (a b : Recommendation) : ℤ :=
  let pw := priorityWeight a.priority - priorityWeight b.priority
  if pw ≠ 0 then pw else b.estimated_quality_gain - a.estimated_quality_gain

/-- a comes strictly before b under the comparator (negative value). -/
def recBefore (a b : Recommendation) : Bool :=
  decide (compareRecs a b < 0)

/-- Insert into a comparator-sorted list, after every element that is
strictly before the inserted one (stable, as Array.prototype.sort). -/
def insertRec (x : Recommendation) : List Recommendation → List Recommendation
  | [] => [x]
  | y :: ys => if recBefore y x then y :: insertRec x ys else x :: y :: ys

/-- The stable sort at the end of generateRecommendations. -/
def sortRecs (l : List Recommendation) : List Recommendation :=
  l.foldr insertRec []

/-- generateRecommendations: the trigger chain of recommendations.ts.
The first four token-utilization triggers form an if / else-if chain in
the source, so at most one of them fires; the remaining triggers are
independent.  An empty list is replaced by the "continue" entry and the
result is sorted by the comparator. -/
def generateRecommendations (assessment : HealthAssessment) : List Recommendation :=
  let utilPct := assessment.token_utilization.percentage
  let tokenRecs : List Recommendation :=
    if 100 ≤ utilPct then
      [{ priority := .critical, action := "immediate_context_reset",
         reason := "You have exceeded the effective quality threshold. Context quality is severely degraded. Save critical state to external memory and start a fresh session immediately.",
         estimated_quality_gain := 40 }]
    else if 80 ≤ utilPct then
      [{ priority := .critical, action := "compact_context",
         reason := "You are deep in the danger zone. Aggressively summarize all older context, remove completed task details, and retain only active task information.",
         estimated_quality_gain := 25 }]
    else if 60 ≤ utilPct then
      [{ priority := .high, action := "compact_context",
         reason := "You are approaching the effective quality threshold. Summarize older context and remove completed task details.",
         estimated_quality_gain := 15 }]
    else if 40 ≤ utilPct then
      [{ priority := .medium, action := "plan_compaction",
         reason := "Token usage is moderate. Begin planning which context can be safely summarized or offloaded before you reach the degradation zone.",
         estimated_quality_gain := 5 }]
    else []
  let middleRecs : List Recommendation :=
    if assessment.quality_estimate.middle_content_risk = .high ∨
        assessment.quality_estimate.middle_content_risk = .critical then
      [{ priority := riskToPriority assessment.quality_estimate.middle_content_risk,
         action := "offload_to_memory",
         reason := "High risk of lost-in-the-middle effect. Key decisions and facts in the middle of your context may already be unretrievable. Store critical information to external memory before it is effectively lost.",
         estimated_quality_gain := 8 }]
    else []
  let toolRecs : List Recommendation :=
    if assessment.session_fatigue.tool_call_burden = .high ∨
        assessment.session_fatigue.tool_call_burden = .critical then
      [{ priority := riskToPriority assessment.session_fatigue.tool_call_burden,
         action := "break_into_subtasks",
         reason := "High number of tool calls has accumulated significant context overhead. Break remaining work into independent sub-tasks that can each start with a fresh, focused context.",
         estimated_quality_gain := 12 }]
    else []
  let sessionRecs : List Recommendation :=
    if assessment.session_fatigue.session_length_risk = .high ∨
        assessment.session_fatigue.session_length_risk = .critical then
      [{ priority := riskToPriority assessment.session_fatigue.session_length_risk,
         action := "session_checkpoint",
         reason := "This session has been running for a long time. Create a checkpoint by documenting current state, decisions made, and next steps - then consider continuing in a fresh session.",
         estimated_quality_gain := 10 }]
    else []
  let hallucRecs : List Recommendation :=
    if assessment.quality_estimate.estimated_hallucination_risk = .high ∨
        assessment.quality_estimate.estimated_hallucination_risk = .critical then
      [{ priority := riskToPriority assessment.quality_estimate.estimated_hallucination_risk,
         action := "verify_outputs",
         reason := "Elevated hallucination risk detected. Double-check facts, re-read source material before citing it, and consider re-verifying recent conclusions against original data.",
         estimated_quality_gain := 5 }]
    else []
  let recs := tokenRecs ++ middleRecs ++ toolRecs ++ sessionRecs ++ hallucRecs
  let recs :=
    if recs.isEmpty then
      [{ priority := .low, action := "continue",
         reason := "Context health is good. No immediate action needed. Continue your current task.",
         estimated_quality_gain := 0 }]
    else recs
  sortRecs recs

/-- The four non-ladder conditional recommendations of
generateRecommendations (middle-content, tool-burden, session-length,
hallucination), spelled exactly as there, for structuring proofs about
the generated list. -/
def nonLadderRecs (assessment : HealthAssessment) : List Recommendation :=
  (if assessment.quality_estimate.middle_content_risk = .high ∨
      assessment.quality_estimate.middle_content_risk = .critical then
    [{ priority := riskToPriority assessment.quality_estimate.middle_content_risk,
       action := "offload_to_memory",
       reason := "High risk of lost-in-the-middle effect. Key decisions and facts in the middle of your context may already be unretrievable. Store critical information to external memory before it is effectively lost.",
       estimated_quality_gain := 8 }]
  else []) ++
  (if assessment.session_fatigue.tool_call_burden = .high ∨
      assessment.session_fatigue.tool_call_burden = .critical then
    [{ priority := riskToPriority assessment.session_fatigue.tool_call_burden,
       action := "break_into_subtasks",
       reason := "High number of tool calls has accumulated significant context overhead. Break remaining work into independent sub-tasks that can each start with a fresh, focused context.",
       estimated_quality_gain := 12 }]
  else []) ++
  (if assessment.session_fatigue.session_length_risk = .high ∨
      assessment.session_fatigue.session_length_risk = .critical then
    [{ priority := riskToPriority assessment.session_fatigue.session_length_risk,
       action := "session_checkpoint",
       reason := "This session has been running for a long time. Create a checkpoint by documenting current state, decisions made, and next steps - then consider continuing in a fresh session.",
       estimated_quality_gain := 10 }]
  else []) ++
  (if assessment.quality_estimate.estimated_hallucination_risk = .high ∨
      assessment.quality_estimate.estimated_hallucination_risk = .critical then
    [{ priority := riskToPriority assessment.quality_estimate.estimated_hallucination_risk,
       action := "verify_outputs",
       reason := "Elevated hallucination risk detected. Double-check facts, re-read source material before citing it, and consider re-verifying recent conclusions against original data.",
       estimated_quality_gain := 5 }]
  else [])

/-! HuggingFace model-profile resolver (huggingface-resolver.ts).

The resolver is the only stateful component.  Its SQLite cache is
modelled as an association list (hasDb false models a null database, in
which both getCached and cacheProfile are no-ops), the network as an
explicit response value passed in, and the outcome records whether the
call issued a network fetch and whether it consulted the cache. -/

/-- JavaScript String.prototype.split with separator "/", on the
character list of the string: "a/b" gives two segments, "" gives one
empty segment, a leading, trailing or doubled slash gives an empty
segment in the corresponding position. -/
def splitOnSlash : List Char → List (List Char)
  | [] => [[]]
  | c :: cs =>
    match splitOnSlash cs with
    | [] => [[]]
    | s :: ss => if c = '/' then [] :: s :: ss else (c :: s) :: ss

/-- looksLikeHuggingFaceRepoId: the string splits on "/" into exactly
two nonempty segments. -/
def looksLikeHuggingFaceRepoId (model : String) : Bool :=
  match splitOnSlash model.toList with
  | [a, b] => decide (0 < a.length) && decide (0 < b.length)
  | _ => false

/-- A HuggingFace config.json document, reduced to the three recognized
context-length fields; a field that is absent or not numeric is none. -/
structure HFConfig where
  max_position_embeddings : Option ℚ := none
  n_positions : Option ℚ := none
  max_seq_len : Option ℚ := none
deriving DecidableEq

/-- extractMaxTokens: the first present field in priority order, rejected
when the value is not positive. -/
def extractMaxTokens (config : HFConfig) : Option ℚ :=
  let value :=
    (config.max_position_embeddings.orElse fun _ =>
      (config.n_positions.orElse fun _ => config.max_seq_len))
  match value with
  | none => none
  | some v => if v ≤ 0 then none else some v

/-- The possible outcomes of the remote GET of config.json.  httpError
covers every non-2xx response; networkError a rejected fetch; timeout
the 5000 ms abort signal. -/
inductive NetResponse where
  | ok (config : HFConfig)
  | httpError (status : ℕ)
  | networkError
  | timeout
deriving DecidableEq

/-- fetchHuggingFaceConfig: field extraction on a 2xx response; every
failure (non-2xx, thrown network error, timeout abort) is caught and
becomes null. -/
def fetchHuggingFaceConfig (resp : NetResponse) : Option ℚ :=
  match resp with
  | .ok config => extractMaxTokens config
  | .httpError _ => none
  | .networkError => none
  | .timeout => none

/-- The resolver cache: repo id to profile. -/
abbrev Cache := List (String × ModelProfile)

/-- getCached: cache read, none when the database is absent. -/
def getCached (hasDb : Bool) (cache : Cache) (repoId : String) : Option ModelProfile :=
  if hasDb then List.lookup repoId cache else none

/-- cacheProfile: INSERT OR REPLACE keyed on repo id, a no-op when the
database is absent. -/
def cacheProfile (hasDb : Bool) (cache : Cache) (repoId : String)
    (profile : ModelProfile) : Cache :=
  if hasDb then
    (repoId, profile) :: (cache.filter fun e => e.1 != repoId)
  else cache

/-- fetchAndCache: fallback profile on a failed fetch (no cache write),
otherwise the heuristic profile, written to the cache. -/
def fetchAndCache (repoId : String) (hasDb : Bool) (cache : Cache)
    (resp : NetResponse) : ModelProfile × Cache :=
  match fetchHuggingFaceConfig resp with
  | none => (getModelProfile ("other"), cache)
  | some maxTokens =>
    let profile := generateHeuristicProfile repoId maxTokens
    (profile, cacheProfile hasDb cache repoId profile)

/-- Outcome of one resolveModelProfile call: the returned profile, the
cache afterwards, whether a network fetch was issued, and whether the
cache was read. -/
structure ResolveOutcome where
  profile : ModelProfile
  cache : Cache
  networkCalled : Bool
  cacheRead : Bool
deriving DecidableEq

/-- resolveModelProfile, sequential semantics (no concurrent caller, so
the in-flight map is empty at entry and cleared again on exit; the
concurrent behaviour is modelled by startCall and settleCall below).
Order: curated catalog, repo-id shape check, cache, remote fetch. -/
def resolveModelProfile (model : String) (hasDb : Bool) (cache : Cache)
    (resp : NetResponse) : ResolveOutcome :=
  let curated := getModelProfile model
  if curated.name ≠ "Unknown Model" then
    { profile := curated, cache := cache, networkCalled := false, cacheRead := false }
  else if looksLikeHuggingFaceRepoId model = false then
    { profile := curated, cache := cache, networkCalled := false, cacheRead := false }
  else
    match getCached hasDb cache model with
    | some cached =>
      { profile := cached, cache := cache, networkCalled := false, cacheRead := true }
    | none =>
      let (profile, cache) := fetchAndCache model hasDb cache resp
      { profile := profile, cache := cache, networkCalled := true, cacheRead := true }

/-! Concurrent semantics.  JavaScript is single threaded: each call of
resolveModelProfile runs synchronously up to and including registering
the in-flight promise and issuing the fetch, and the shared promise
settles only after every concurrently-issued call has run that prologue.
A generation of N concurrent calls for one key is therefore the event
sequence of N prologues (startCall) followed by one settlement
(settleCall).  Callers are indistinct, so the state tracks how many are
awaiting the in-flight promise and the multiset of delivered results. -/

/-- State of a resolver instance during one generation of concurrent
resolution for a fixed key. -/
structure ConcState where
  cache : Cache
  inFlight : Bool
  netCalls : ℕ
  waiting : ℕ
  finished : List ModelProfile
deriving DecidableEq

/-- The synchronous prologue of one resolveModelProfile call: an early
return appends the result, otherwise the caller joins the in-flight
promise, creating it (and issuing the single fetch) if absent. -/
def startCall (key : String) (hasDb : Bool) (st : ConcState) : ConcState :=
  let curated := getModelProfile key
  if curated.name ≠ "Unknown Model" then
    { st with finished := curated :: st.finished }
  else if looksLikeHuggingFaceRepoId key = false then
    { st with finished := curated :: st.finished }
  else
    match getCached hasDb st.cache key with
    | some cached => { st with finished := cached :: st.finished }
    | none =>
      if st.inFlight then { st with waiting := st.waiting + 1 }
      else
        { st with inFlight := true, netCalls := st.netCalls + 1,
                  waiting := st.waiting + 1 }

/-- Settlement of the in-flight fetch: fetchAndCache runs (writing the
cache only on success), every awaiting caller receives the one shared
result, and the in-flight marker is cleared (the finally block). -/
def settleCall (key : String) (hasDb : Bool) (resp : NetResponse)
    (st : ConcState) : ConcState :=
  if st.inFlight then
    let (profile, cache) := fetchAndCache key hasDb st.cache resp
    { cache := cache, inFlight := false, netCalls := st.netCalls,
      waiting := 0, finished := List.replicate st.waiting profile ++ st.finished }
  else st

/-- A concrete assessment whose token-utilization percentage is exactly
100 and whose other risk signals are all low, for exercising the
token-utilization trigger ladder of the recommendation generator. -/
def ladderAssessment : HealthAssessment :=
  { health_score := 50, status := .warning,
    token_utilization :=
      { current := 100000, max_effective := 100000, percentage := 100,
        danger_zone_starts_at := 100000 },
    quality_estimate :=
      { retrieval_accuracy := .good, middle_content_risk := .low,
        estimated_hallucination_risk := .low },
    session_fatigue :=
      { tool_call_burden := .low, session_length_risk := .low,
        recommendation := "Session fatigue is low. Continue as normal." } }

/-- A profile with degradationOnset equal to maxTokens, admitted by the
nonstrict invariant 0 < onset and onset at most maxTokens. -/
def degenerateProfile : ModelProfile :=
  { name := "degenerate", maxTokens := 100, degradationOnset := 100,
    dangerZone := 100, middleLossCoefficient := 0.40, baseRetrievalAccuracy := 0.90 }

/-! Helper lemmas. -/

theorem lookup_eq_none_of_not_mem_keys {β : Type} :
    ∀ (l : List (String × β)) (a : String), a ∉ l.map Prod.fst → List.lookup a l = none
  | [], _, _ => rfl
  | (k, v) :: es, a, h => by
    have h1 : a ≠ k := by
      intro e
      exact h (by simp [e])
    have h2 : a ∉ es.map Prod.fst := fun m => h (by simp [m])
    have hk : (a == k) = false := beq_eq_false_iff_ne.mpr h1
    simp [List.lookup, hk, lookup_eq_none_of_not_mem_keys es a h2]

/-- An identifier outside KNOWN_MODELS resolves to the fallback entry. -/
theorem getModelProfile_eq_other (m : String) (hm : m ∉ KNOWN_MODELS) :
    getModelProfile m = OTHER_PROFILE := by
  by_cases hk : m ∈ MODEL_PROFILES.map Prod.fst
  · have he : m = "other" := by
      by_contra hne
      apply hm
      unfold KNOWN_MODELS
      exact List.mem_filter.mpr ⟨hk, by simpa using hne⟩
    subst he
    rfl
  · unfold getModelProfile
    rw [lookup_eq_none_of_not_mem_keys _ _ hk]
    rfl

/-- Every curated identifier has a profile name other than the fallback
name, so the resolver returns it at step 1. -/
theorem known_name_ne : ∀ m ∈ KNOWN_MODELS, (getModelProfile m).name ≠ "Unknown Model" := by
  decide

theorem insertRec_perm (x : Recommendation) :
    ∀ (l : List Recommendation), (insertRec x l).Perm (x :: l)
  | [] => List.Perm.refl _
  | y :: ys => by
    unfold insertRec
    split
    · exact ((insertRec_perm x ys).cons y).trans (List.Perm.swap x y ys)
    · exact List.Perm.refl _

theorem sortRecs_perm : ∀ (l : List Recommendation), (sortRecs l).Perm l
  | [] => List.Perm.refl _
  | a :: l =>
    (insertRec_perm a (sortRecs l)).trans ((sortRecs_perm l).cons a)

theorem mem_sortRecs {r : Recommendation} {l : List Recommendation} :
    r ∈ sortRecs l ↔ r ∈ l :=
  (sortRecs_perm l).mem_iff

theorem scoreToStatus_iff (s : ℤ) :
    (scoreToStatus s = .healthy ↔ 70 ≤ s) ∧
    (scoreToStatus s = .warning ↔ 40 ≤ s ∧ s < 70) ∧
    (scoreToStatus s = .danger ↔ s < 40) := by
  unfold scoreToStatus
  split_ifs with h1 h2
  all_goals refine ⟨?_, ?_, ?_⟩
  all_goals simp_all
  all_goals omega

/-! Claim theorems. -/

/-- C9: getModelProfile is total — it returns a profile for every input
string — and every identifier outside the curated model keys yields the
designated fallback profile, named Unknown Model with maxTokens 128000
and dangerZone 100000. -/
theorem c9_getProfile_total_fallback (m : String) (hm : m ∉ KNOWN_MODELS) :
    getModelProfile m = OTHER_PROFILE ∧
    (getModelProfile m).name = "Unknown Model" ∧
    (getModelProfile m).maxTokens = 128000 ∧
    (getModelProfile m).dangerZone = 100000 := by
  have h := getModelProfile_eq_other m hm
  rw [h]
  exact ⟨rfl, rfl, rfl, rfl⟩

/-- Witness for C9 at the unknown identifier llama-4-maverick. -/
theorem c9_witness :
    "llama-4-maverick" ∉ KNOWN_MODELS ∧
    getModelProfile ("llama-4-maverick") = OTHER_PROFILE ∧
    (getModelProfile ("llama-4-maverick")).maxTokens = 128000 :=
  ⟨by decide, (c9_getProfile_total_fallback ("llama-4-maverick") (by decide)).1,
    (c9_getProfile_total_fallback ("llama-4-maverick") (by decide)).2.2.1⟩

theorem getModelProfile_other : getModelProfile ("other") = OTHER_PROFILE := rfl

/-- C4: short-circuiting resolution order of resolveModelProfile: a
curated identifier returns its curated profile with no network call and
no cache access; an identifier without the two-segment namespace/name
shape returns the fallback with no I/O; a cached identifier returns the
cached profile with no network call; an uncached two-segment identifier
whose fetch succeeds with max_position_embeddings 131072 yields the
heuristic profile with maxTokens 131072, degradationOnset 85197 and
dangerZone 104858, written to the cache, and a second call for the same
identifier returns the cached value without a second network call. -/
theorem c4_resolution_order :
    (∀ m ∈ KNOWN_MODELS, ∀ (hasDb : Bool) (cache : Cache) (resp : NetResponse),
      resolveModelProfile m hasDb cache resp =
        { profile := getModelProfile m, cache := cache,
          networkCalled := false, cacheRead := false }) ∧
    (∀ (m : String) (hasDb : Bool) (cache : Cache) (resp : NetResponse),
      m ∉ KNOWN_MODELS → looksLikeHuggingFaceRepoId m = false →
      resolveModelProfile m hasDb cache resp =
        { profile := OTHER_PROFILE, cache := cache,
          networkCalled := false, cacheRead := false }) ∧
    (∀ (m : String) (cache : Cache) (resp : NetResponse) (p : ModelProfile),
      m ∉ KNOWN_MODELS → looksLikeHuggingFaceRepoId m = true →
      List.lookup m cache = some p →
      resolveModelProfile m true cache resp =
        { profile := p, cache := cache, networkCalled := false, cacheRead := true }) ∧
    (resolveModelProfile ("meta-llama/Llama-3.1-70B") true []
        (.ok { max_position_embeddings := some 131072 }) =
      { profile := generateHeuristicProfile ("meta-llama/Llama-3.1-70B") 131072,
        cache := [(("meta-llama/Llama-3.1-70B"),
          generateHeuristicProfile ("meta-llama/Llama-3.1-70B") 131072)],
        networkCalled := true, cacheRead := true }) ∧
    (generateHeuristicProfile ("meta-llama/Llama-3.1-70B") 131072).maxTokens = 131072 ∧
    (generateHeuristicProfile ("meta-llama/Llama-3.1-70B") 131072).degradationOnset = 85197 ∧
    (generateHeuristicProfile ("meta-llama/Llama-3.1-70B") 131072).dangerZone = 104858 ∧
    (∀ resp2 : NetResponse,
      resolveModelProfile ("meta-llama/Llama-3.1-70B") true
        [(("meta-llama/Llama-3.1-70B"),
          generateHeuristicProfile ("meta-llama/Llama-3.1-70B") 131072)] resp2 =
      { profile := generateHeuristicProfile ("meta-llama/Llama-3.1-70B") 131072,
        cache := [(("meta-llama/Llama-3.1-70B"),
          generateHeuristicProfile ("meta-llama/Llama-3.1-70B") 131072)],
        networkCalled := false, cacheRead := true }) := by
  refine ⟨?_, ?_, ?_, ?_, ?_, ?_, ?_, ?_⟩
  · intro m hm hasDb cache resp
    have hname := known_name_ne m hm
    unfold resolveModelProfile
    rw [if_pos hname]
  · intro m hasDb cache resp hm hshape
    have hother := getModelProfile_eq_other m hm
    unfold resolveModelProfile
    rw [hother]
    rw [if_neg (by simp [OTHER_PROFILE]), if_pos hshape]
  · intro m cache resp p hm hshape hcached
    have hother := getModelProfile_eq_other m hm
    unfold resolveModelProfile
    rw [hother]
    rw [if_neg (by simp [OTHER_PROFILE])]
    rw [if_neg (by simp [hshape])]
    simp [getCached, hcached]
  · rfl
  · rfl
  · norm_num [generateHeuristicProfile, mathRound]
  · norm_num [generateHeuristicProfile, mathRound]
  · intro resp2
    rfl

/-- Witness for C4, instantiating the quantified parts at the curated
identifier claude-opus-4, the shapeless identifier llama-4, and a cached
repo identifier. -/
theorem c4_witness :
    (resolveModelProfile ("claude-opus-4") true [] .networkError =
      { profile := getModelProfile ("claude-opus-4"), cache := [],
        networkCalled := false, cacheRead := false }) ∧
    (resolveModelProfile ("llama-4") true [] .networkError =
      { profile := OTHER_PROFILE, cache := [],
        networkCalled := false, cacheRead := false }) ∧
    (resolveModelProfile ("org/model") true [(("org/model"), OTHER_PROFILE)] .networkError =
      { profile := OTHER_PROFILE, cache := [(("org/model"), OTHER_PROFILE)],
        networkCalled := false, cacheRead := true }) :=
  ⟨c4_resolution_order.1 ("claude-opus-4") (by decide) true [] .networkError,
   c4_resolution_order.2.1 ("llama-4") true [] .networkError (by decide) (by decide),
   c4_resolution_order.2.2.1 ("org/model") [(("org/model"), OTHER_PROFILE)] .networkError
     OTHER_PROFILE (by decide) (by decide) rfl⟩

/-- C5: every resolution failure — non-2xx response, network error,
timeout, missing context-length field, non-positive value — makes
fetchHuggingFaceConfig yield none, and a resolveModelProfile call whose
fetch yields none leaves the cache unchanged and, whenever it issued the
network call at all, returns the conservative fallback profile; the
function is total, so no exception reaches the caller. -/
theorem c5_failure_fallback :
    (∀ s : ℕ, fetchHuggingFaceConfig (.httpError s) = none) ∧
    fetchHuggingFaceConfig .networkError = none ∧
    fetchHuggingFaceConfig .timeout = none ∧
    (∀ v : ℚ, v ≤ 0 →
      fetchHuggingFaceConfig (.ok { max_position_embeddings := some v }) = none) ∧
    fetchHuggingFaceConfig (.ok { }) = none ∧
    (∀ (m : String) (hasDb : Bool) (cache : Cache) (resp : NetResponse),
      fetchHuggingFaceConfig resp = none →
      (resolveModelProfile m hasDb cache resp).cache = cache ∧
      ((resolveModelProfile m hasDb cache resp).networkCalled = true →
        (resolveModelProfile m hasDb cache resp).profile = OTHER_PROFILE)) := by
  refine ⟨fun s => rfl, rfl, rfl, ?_, rfl, ?_⟩
  · intro v hv
    simp [fetchHuggingFaceConfig, extractMaxTokens, Option.orElse, hv]
  · intro m hasDb cache resp hresp
    simp only [resolveModelProfile]
    split_ifs with hc hs
    · exact ⟨rfl, by simp⟩
    · exact ⟨rfl, by simp⟩
    · cases hg : getCached hasDb cache m with
      | some p => simp [hg]
      | none => simp [hg, fetchAndCache, hresp, getModelProfile_other]

/-- Witness for C5 at a concrete 404 failure. -/
theorem c5_witness :
    fetchHuggingFaceConfig (.httpError 404) = none ∧
    fetchHuggingFaceConfig (.ok { max_position_embeddings := some 0 }) = none ∧
    (resolveModelProfile ("org/model") true [] (.httpError 404)).cache = [] ∧
    ((resolveModelProfile ("org/model") true [] (.httpError 404)).networkCalled = true →
      (resolveModelProfile ("org/model") true [] (.httpError 404)).profile = OTHER_PROFILE) :=
  ⟨c5_failure_fallback.1 404,
   c5_failure_fallback.2.2.2.1 0 (by norm_num),
   (c5_failure_fallback.2.2.2.2.2 ("org/model") true [] (.httpError 404) rfl).1,
   (c5_failure_fallback.2.2.2.2.2 ("org/model") true [] (.httpError 404) rfl).2⟩

/-- Under a percentage of at least 100, the generated list is the sorted
immediate-context-reset recommendation followed by the non-ladder
conditional recommendations. -/
theorem gen_eq_of_pct100 (a : HealthAssessment)
    (h : 100 ≤ a.token_utilization.percentage) :
    generateRecommendations a = sortRecs
      ({ priority := .critical, action := "immediate_context_reset",
         reason := "You have exceeded the effective quality threshold. Context quality is severely degraded. Save critical state to external memory and start a fresh session immediately.",
         estimated_quality_gain := 40 } :: nonLadderRecs a) := by
  simp only [generateRecommendations, nonLadderRecs]
  rw [if_pos h]
  simp

/-- Every non-ladder recommendation is one of the four fixed non-ladder
actions. -/
theorem nonLadder_actions (a : HealthAssessment) :
    ∀ r ∈ nonLadderRecs a,
      r.action = "offload_to_memory" ∨ r.action = "break_into_subtasks" ∨
      r.action = "session_checkpoint" ∨ r.action = "verify_outputs" := by
  simp only [nonLadderRecs, List.forall_mem_append]
  refine ⟨⟨⟨?_, ?_⟩, ?_⟩, ?_⟩ <;> (split_ifs <;> simp)

/-- C1 counterexample: the four token-utilization triggers are an
if / else-if chain, not independent; at a percentage of exactly 100 the
generator emits one single recommendation, with no compact_context and
no plan_compaction entry, not all four ladder recommendations. -/
theorem c1_counterexample :
    100 ≤ ladderAssessment.token_utilization.percentage ∧
    (generateRecommendations ladderAssessment).length = 1 ∧
    ((generateRecommendations ladderAssessment).filter
      (fun r => r.action == "compact_context")).length = 0 ∧
    ((generateRecommendations ladderAssessment).filter
      (fun r => r.action == "plan_compaction")).length = 0 := by
  decide

/-- C1 amended: the ladder triggers are mutually exclusive — only the
highest matching one is emitted.  An assessment with percentage at least
100 emits the critical immediate_context_reset recommendation with gain
40 and no compact_context or plan_compaction recommendation at all. -/
theorem c1_amended (a : HealthAssessment)
    (h : 100 ≤ a.token_utilization.percentage) :
    ({ priority := .critical, action := "immediate_context_reset",
       reason := "You have exceeded the effective quality threshold. Context quality is severely degraded. Save critical state to external memory and start a fresh session immediately.",
       estimated_quality_gain := 40 } : Recommendation) ∈ generateRecommendations a ∧
    ∀ r ∈ generateRecommendations a,
      r.action ≠ "compact_context" ∧ r.action ≠ "plan_compaction" := by
  have hgen := gen_eq_of_pct100 a h
  constructor
  · rw [hgen, mem_sortRecs]
    exact List.mem_cons_self _ _
  · intro r hr
    rw [hgen, mem_sortRecs] at hr
    rcases List.mem_cons.mp hr with rfl | hr2
    · exact ⟨by decide, by decide⟩
    · rcases nonLadder_actions a r hr2 with h1 | h1 | h1 | h1 <;> simp [h1]

/-- Witness for the amended C1 at the concrete percentage-100
assessment. -/
theorem c1_witness :
    100 ≤ ladderAssessment.token_utilization.percentage ∧
    ({ priority := .critical, action := "immediate_context_reset",
       reason := "You have exceeded the effective quality threshold. Context quality is severely degraded. Save critical state to external memory and start a fresh session immediately.",
       estimated_quality_gain := 40 } : Recommendation) ∈
      generateRecommendations ladderAssessment :=
  ⟨by decide, (c1_amended ladderAssessment (by decide)).1⟩

/-- After k concurrent prologues (k at least 1) for an unresolved key,
exactly one fetch has been issued, the in-flight marker is set, and all
k callers are awaiting the shared promise. -/
theorem startN_eq (key : String) (hasDb : Bool) (cache0 : Cache)
    (hname : (getModelProfile key).name = "Unknown Model")
    (hshape : looksLikeHuggingFaceRepoId key = true)
    (hcache : getCached hasDb cache0 key = none) :
    ∀ n : ℕ, 1 ≤ n →
      (startCall key hasDb)^[n]
        { cache := cache0, inFlight := false, netCalls := 0, waiting := 0, finished := [] } =
      { cache := cache0, inFlight := true, netCalls := 1, waiting := n, finished := [] } := by
  intro n hn
  induction n, hn using Nat.le_induction with
  | base =>
    rw [Function.iterate_one]
    simp [startCall, hname, hshape, hcache]
  | succ n hn ih =>
    rw [Function.iterate_succ_apply', ih]
    simp [startCall, hname, hshape, hcache]

/-- C2: for an unresolved key (not curated, two-segment shape, not in
the cache), n concurrent callers issue exactly one network call — at
most one outstanding fetch at any point of the prologue sequence — and
after the shared fetch settles every caller has received the identical
shared result (heuristic profile on success, fallback on failure), the
cache is updated by that single fetchAndCache, and the in-flight marker
is cleared. -/
theorem c2_dedup (key : String) (hasDb : Bool) (cache0 : Cache)
    (resp : NetResponse) (n : ℕ)
    (hkey : key ∉ KNOWN_MODELS)
    (hshape : looksLikeHuggingFaceRepoId key = true)
    (hcache : getCached hasDb cache0 key = none)
    (hn : 1 ≤ n) :
    (∀ k ≤ n, ((startCall key hasDb)^[k]
        { cache := cache0, inFlight := false, netCalls := 0, waiting := 0,
          finished := [] }).netCalls ≤ 1) ∧
    settleCall key hasDb resp ((startCall key hasDb)^[n]
        { cache := cache0, inFlight := false, netCalls := 0, waiting := 0,
          finished := [] }) =
      { cache := (fetchAndCache key hasDb cache0 resp).2, inFlight := false,
        netCalls := 1, waiting := 0,
        finished := List.replicate n (fetchAndCache key hasDb cache0 resp).1 } := by
  have hname : (getModelProfile key).name = "Unknown Model" := by
    rw [getModelProfile_eq_other key hkey]
    rfl
  have hiter := startN_eq key hasDb cache0 hname hshape hcache
  constructor
  · intro k hk
    rcases Nat.eq_zero_or_pos k with h0 | h1
    · subst h0
      simp
    · rw [hiter k h1]
  · rw [hiter n hn]
    simp [settleCall]

/-- Witness for C2: two concurrent callers for org/model with a
successful 16384-token response share one fetch. -/
theorem c2_witness :
    settleCall ("org/model") true (.ok { max_position_embeddings := some 16384 })
        ((startCall ("org/model") true)^[2]
          { cache := [], inFlight := false, netCalls := 0, waiting := 0, finished := [] }) =
      { cache := (fetchAndCache ("org/model") true []
          (.ok { max_position_embeddings := some 16384 })).2,
        inFlight := false, netCalls := 1, waiting := 0,
        finished := List.replicate 2 (fetchAndCache ("org/model") true []
          (.ok { max_position_embeddings := some 16384 })).1 } :=
  (c2_dedup ("org/model") true [] (.ok { max_position_embeddings := some 16384 }) 2
    (by decide) (by decide) rfl (by norm_num)).2

theorem mathRoundR_mono {x y : ℝ} (h : x ≤ y) : mathRoundR x ≤ mathRoundR y :=
  Int.floor_le_floor (by linarith)

theorem mathRoundR_intCast (n : ℤ) : mathRoundR (n : ℝ) = n := by
  unfold mathRoundR
  rw [add_comm, Int.floor_add_int]
  norm_num

/-- Rounding commutes with clamping to the integer-endpoint interval
0..100, since rounding is monotone and fixes both endpoints. -/
theorem mathRoundR_clamp (x : ℝ) :
    mathRoundR (max 0 (min 100 x)) = max 0 (min 100 (mathRoundR x)) := by
  have h0 : mathRoundR (0:ℝ) = 0 := by simpa using mathRoundR_intCast 0
  have h100 : mathRoundR (100:ℝ) = 100 := by simpa using mathRoundR_intCast 100
  rcases le_total x 0 with hx | hx
  · have h2 : mathRoundR x ≤ 0 := by
      have := mathRoundR_mono hx
      rwa [h0] at this
    rw [min_eq_right (hx.trans (by norm_num)), max_eq_left hx, h0,
      min_eq_right (h2.trans (by norm_num)), max_eq_left h2]
  · rcases le_total x 100 with hx2 | hx2
    · have ha : 0 ≤ mathRoundR x := by
        have := mathRoundR_mono hx
        rwa [h0] at this
      have hb : mathRoundR x ≤ 100 := by
        have := mathRoundR_mono hx2
        rwa [h100] at this
      rw [min_eq_right hx2, max_eq_right hx, min_eq_right hb, max_eq_right ha]
    · have hb : 100 ≤ mathRoundR x := by
        have := mathRoundR_mono hx2
        rwa [h100] at this
      rw [min_eq_left hx2, max_eq_right (by norm_num : (0:ℝ) ≤ 100), h100,
        min_eq_left hb, max_eq_right (by norm_num : (0:ℤ) ≤ 100)]

theorem qm_eq_one {t : ℝ} {p : ModelProfile} (h : t ≤ (p.degradationOnset : ℝ)) :
    calculateQualityMultiplier t p = 1 := by
  unfold calculateQualityMultiplier
  rw [if_pos h]

theorem qm_eq_floor {t : ℝ} {p : ModelProfile}
    (h1 : (p.degradationOnset : ℝ) < t) (h2 : (p.maxTokens : ℝ) ≤ t) :
    calculateQualityMultiplier t p = 0.2 := by
  unfold calculateQualityMultiplier
  rw [if_neg (not_le.mpr h1), if_pos h2]

theorem qm_eq_mid {t : ℝ} {p : ModelProfile}
    (h1 : (p.degradationOnset : ℝ) < t) (h2 : t < (p.maxTokens : ℝ)) :
    calculateQualityMultiplier t p =
      max 0.2 (1 - ((t - (p.degradationOnset : ℝ)) /
        ((p.maxTokens : ℝ) - (p.degradationOnset : ℝ))) ^ (1.5:ℝ) * 0.8) := by
  unfold calculateQualityMultiplier
  rw [if_neg (not_le.mpr h1), if_neg (not_le.mpr h2)]

/-- The quality multiplier is always between its floor 0.2 and 1. -/
theorem qm_bounds (t : ℝ) (p : ModelProfile) :
    0.2 ≤ calculateQualityMultiplier t p ∧ calculateQualityMultiplier t p ≤ 1 := by
  rcases le_or_lt t (p.degradationOnset : ℝ) with h1 | h1
  · rw [qm_eq_one h1]
    norm_num
  · rcases le_or_lt (p.maxTokens : ℝ) t with h2 | h2
    · rw [qm_eq_floor h1 h2]
      norm_num
    · rw [qm_eq_mid h1 h2]
      have hpr : 0 ≤ (t - (p.degradationOnset:ℝ)) /
          ((p.maxTokens:ℝ) - (p.degradationOnset:ℝ)) :=
        div_nonneg (by linarith) (by linarith)
      have hdeg : 0 ≤ ((t - (p.degradationOnset:ℝ)) /
          ((p.maxTokens:ℝ) - (p.degradationOnset:ℝ))) ^ (1.5:ℝ) :=
        Real.rpow_nonneg hpr _
      refine ⟨le_max_left _ _, max_le (by norm_num) (by nlinarith)⟩

/-- The quality multiplier is non-increasing in the token count, for
every profile. -/
theorem qm_antitone (p : ModelProfile) {t1 t2 : ℝ} (h : t1 ≤ t2) :
    calculateQualityMultiplier t2 p ≤ calculateQualityMultiplier t1 p := by
  rcases le_or_lt t1 (p.degradationOnset : ℝ) with h1 | h1
  · rw [qm_eq_one h1]
    exact (qm_bounds t2 p).2
  · rcases le_or_lt (p.maxTokens : ℝ) t1 with h2 | h2
    · rw [qm_eq_floor h1 h2, qm_eq_floor (h1.trans_le h) (h2.trans h)]
    · rw [qm_eq_mid h1 h2]
      rcases le_or_lt (p.maxTokens : ℝ) t2 with h3 | h3
      · rw [qm_eq_floor (h1.trans_le h) h3]
        exact le_max_left _ _
      · rw [qm_eq_mid (h1.trans_le h) h3]
        apply max_le_max le_rfl
        have hr : (0:ℝ) < (p.maxTokens:ℝ) - (p.degradationOnset:ℝ) := by linarith
        have hp1 : 0 ≤ (t1 - (p.degradationOnset:ℝ)) /
            ((p.maxTokens:ℝ) - (p.degradationOnset:ℝ)) :=
          div_nonneg (by linarith) (by linarith)
        have hple : (t1 - (p.degradationOnset:ℝ)) /
              ((p.maxTokens:ℝ) - (p.degradationOnset:ℝ)) ≤
            (t2 - (p.degradationOnset:ℝ)) /
              ((p.maxTokens:ℝ) - (p.degradationOnset:ℝ)) :=
          (div_le_div_right hr).mpr (by linarith)
        have hrp := Real.rpow_le_rpow hp1 hple (by norm_num : (0:ℝ) ≤ 1.5)
        linarith

/-- C6 counterexample: the claim admits profiles with degradationOnset
equal to maxTokens, and for such a profile the quality multiplier at
t = maxTokens is 1, not 0.2, because the onset branch is checked
first. -/
theorem c6_counterexample :
    0 < degenerateProfile.degradationOnset ∧
    degenerateProfile.degradationOnset ≤ degenerateProfile.maxTokens ∧
    (degenerateProfile.maxTokens : ℝ) ≤ 100 ∧
    calculateQualityMultiplier 100 degenerateProfile = 1 ∧
    (1:ℝ) ≠ 0.2 := by
  refine ⟨by norm_num [degenerateProfile], by norm_num [degenerateProfile],
    by norm_num [degenerateProfile], ?_, by norm_num⟩
  exact qm_eq_one (by norm_num [degenerateProfile])

/-- C6 amended: for every profile with 0 < degradationOnset strictly
less than maxTokens, the quality multiplier is non-increasing in t,
equal to 1 up to the onset, equal to 0.2 from maxTokens on, and between
0.2 and 1 everywhere. -/
theorem c6_amended (p : ModelProfile) (h1 : 0 < p.degradationOnset)
    (h2 : p.degradationOnset < p.maxTokens) :
    (∀ t1 t2 : ℝ, 0 ≤ t1 → t1 ≤ t2 →
      calculateQualityMultiplier t2 p ≤ calculateQualityMultiplier t1 p) ∧
    (∀ t : ℝ, t ≤ (p.degradationOnset : ℝ) → calculateQualityMultiplier t p = 1) ∧
    (∀ t : ℝ, (p.maxTokens : ℝ) ≤ t → calculateQualityMultiplier t p = 0.2) ∧
    (∀ t : ℝ, 0.2 ≤ calculateQualityMultiplier t p ∧
      calculateQualityMultiplier t p ≤ 1) := by
  have hab : (p.degradationOnset : ℝ) < (p.maxTokens : ℝ) := by exact_mod_cast h2
  exact ⟨fun t1 t2 _ h => qm_antitone p h, fun t ht => qm_eq_one ht,
    fun t ht => qm_eq_floor (lt_of_lt_of_le hab ht) ht, fun t => qm_bounds t p⟩

/-- Witness for the amended C6 at the fallback profile. -/
theorem c6_witness :
    0 < OTHER_PROFILE.degradationOnset ∧
    OTHER_PROFILE.degradationOnset < OTHER_PROFILE.maxTokens ∧
    calculateQualityMultiplier 1000 OTHER_PROFILE = 1 ∧
    calculateQualityMultiplier 130000 OTHER_PROFILE = 0.2 ∧
    calculateQualityMultiplier 200000 OTHER_PROFILE ≤
      calculateQualityMultiplier 100 OTHER_PROFILE :=
  ⟨by norm_num [OTHER_PROFILE], by norm_num [OTHER_PROFILE],
   (c6_amended OTHER_PROFILE (by norm_num [OTHER_PROFILE])
     (by norm_num [OTHER_PROFILE])).2.1 1000 (by norm_num [OTHER_PROFILE]),
   (c6_amended OTHER_PROFILE (by norm_num [OTHER_PROFILE])
     (by norm_num [OTHER_PROFILE])).2.2.1 130000 (by norm_num [OTHER_PROFILE]),
   (c6_amended OTHER_PROFILE (by norm_num [OTHER_PROFILE])
     (by norm_num [OTHER_PROFILE])).1 100 200000 (by norm_num) (by norm_num)⟩

/-- C7: the retrieval-accuracy estimate has floor 0.1 for every token
count, and equals the profile base accuracy for every t up to the
degradation onset, provided the base accuracy is at least 0.1. -/
theorem c7_retrieval_floor_and_base (p : ModelProfile) (t : ℝ) :
    (0 ≤ t → 0.1 ≤ estimateRetrievalAccuracy t p) ∧
    (t ≤ (p.degradationOnset : ℝ) → 0.1 ≤ (p.baseRetrievalAccuracy : ℝ) →
      estimateRetrievalAccuracy t p = (p.baseRetrievalAccuracy : ℝ)) := by
  constructor
  · intro _
    simp only [estimateRetrievalAccuracy]
    exact le_max_left _ _
  · intro ht hb
    simp only [estimateRetrievalAccuracy]
    rw [if_neg (not_lt.mpr ht), qm_eq_one ht]
    rw [mul_one, sub_zero]
    exact max_eq_right hb

/-- Witness for C7 at the fallback profile and t = 5000. -/
theorem c7_witness :
    0.1 ≤ estimateRetrievalAccuracy 5000 OTHER_PROFILE ∧
    estimateRetrievalAccuracy 5000 OTHER_PROFILE =
      (OTHER_PROFILE.baseRetrievalAccuracy : ℝ) :=
  ⟨(c7_retrieval_floor_and_base OTHER_PROFILE 5000).1 (by norm_num),
   (c7_retrieval_floor_and_base OTHER_PROFILE 5000).2
     (by norm_num [OTHER_PROFILE]) (by norm_num [OTHER_PROFILE])⟩

/-- C10: under the documented profile invariants (0 < onset < maxTokens,
nonnegative middle-loss coefficient and base accuracy), the
retrieval-accuracy estimate is non-increasing in the token count. -/
theorem c10_retrieval_antitone (p : ModelProfile) (h1 : 0 < p.degradationOnset)
    (h2 : p.degradationOnset < p.maxTokens) (h3 : 0 ≤ p.middleLossCoefficient)
    (h4 : 0 ≤ p.baseRetrievalAccuracy) :
    ∀ t1 t2 : ℝ, 0 ≤ t1 → t1 ≤ t2 →
      estimateRetrievalAccuracy t2 p ≤ estimateRetrievalAccuracy t1 p := by
  intro t1 t2 h0 h
  have hab : (p.degradationOnset : ℝ) < (p.maxTokens : ℝ) := by exact_mod_cast h2
  have h3r : (0:ℝ) ≤ (p.middleLossCoefficient : ℝ) := by exact_mod_cast h3
  have h4r : (0:ℝ) ≤ (p.baseRetrievalAccuracy : ℝ) := by exact_mod_cast h4
  have hmul : (p.baseRetrievalAccuracy:ℝ) * calculateQualityMultiplier t2 p ≤
      (p.baseRetrievalAccuracy:ℝ) * calculateQualityMultiplier t1 p :=
    mul_le_mul_of_nonneg_left (qm_antitone p h) h4r
  simp only [estimateRetrievalAccuracy]
  apply max_le_max le_rfl
  split_ifs with q1 q2
  · have hd : (t1 - (p.degradationOnset:ℝ)) /
        ((p.maxTokens:ℝ) - (p.degradationOnset:ℝ)) ≤
        (t2 - (p.degradationOnset:ℝ)) /
        ((p.maxTokens:ℝ) - (p.degradationOnset:ℝ)) :=
      (div_le_div_right (by linarith)).mpr (by linarith)
    have := mul_le_mul_of_nonneg_left hd h3r
    linarith
  · have : 0 ≤ (p.middleLossCoefficient:ℝ) *
        ((t2 - (p.degradationOnset:ℝ)) /
          ((p.maxTokens:ℝ) - (p.degradationOnset:ℝ))) :=
      mul_nonneg h3r (div_nonneg (by linarith) (by linarith))
    linarith
  · linarith
  · linarith

/-- Witness for C10 at the fallback profile. -/
theorem c10_witness :
    0 < OTHER_PROFILE.degradationOnset ∧
    OTHER_PROFILE.degradationOnset < OTHER_PROFILE.maxTokens ∧
    0 ≤ OTHER_PROFILE.middleLossCoefficient ∧
    0 ≤ OTHER_PROFILE.baseRetrievalAccuracy ∧
    estimateRetrievalAccuracy 120000 OTHER_PROFILE ≤
      estimateRetrievalAccuracy 90000 OTHER_PROFILE :=
  ⟨by norm_num [OTHER_PROFILE], by norm_num [OTHER_PROFILE],
   by norm_num [OTHER_PROFILE], by norm_num [OTHER_PROFILE],
   c10_retrieval_antitone OTHER_PROFILE (by norm_num [OTHER_PROFILE])
     (by norm_num [OTHER_PROFILE]) (by norm_num [OTHER_PROFILE])
     (by norm_num [OTHER_PROFILE]) 90000 120000 (by norm_num) (by norm_num)⟩

/-- C3: the health score is the clamped-to-0..100 rounding of
40 times the quality multiplier plus 25 times the retrieval accuracy
plus the tool score (20/15/8/3 at the 5/15/30 boundaries) plus the
session score (15/12/6/2 at the 15/45/90 boundaries), and the status is
healthy exactly from score 70, warning exactly on 40 to 69, danger
exactly below 40. -/
theorem c3_score_and_status (input : AssessmentInput) (profile : ModelProfile) :
    ((assessHealth input profile).health_score =
      max 0 (min 100 (mathRoundR
        (40 * calculateQualityMultiplier (input.tokenCount : ℝ) profile +
         25 * estimateRetrievalAccuracy (input.tokenCount : ℝ) profile +
         (if input.toolCallsCount.getD 0 ≤ 5 then (20:ℝ)
          else if input.toolCallsCount.getD 0 ≤ 15 then 15
          else if input.toolCallsCount.getD 0 ≤ 30 then 8 else 3) +
         (if input.sessionDurationMinutes.getD 0 ≤ 15 then (15:ℝ)
          else if input.sessionDurationMinutes.getD 0 ≤ 45 then 12
          else if input.sessionDurationMinutes.getD 0 ≤ 90 then 6 else 2))))) ∧
    ((assessHealth input profile).status = .healthy ↔
      70 ≤ (assessHealth input profile).health_score) ∧
    ((assessHealth input profile).status = .warning ↔
      40 ≤ (assessHealth input profile).health_score ∧
      (assessHealth input profile).health_score < 70) ∧
    ((assessHealth input profile).status = .danger ↔
      (assessHealth input profile).health_score < 40) := by
  have hs : (assessHealth input profile).health_score =
      computeHealthScore (calculateQualityMultiplier (input.tokenCount:ℝ) profile)
        (estimateRetrievalAccuracy (input.tokenCount:ℝ) profile)
        (input.toolCallsCount.getD 0) (input.sessionDurationMinutes.getD 0) := rfl
  have hst : (assessHealth input profile).status =
      scoreToStatus (assessHealth input profile).health_score := rfl
  refine ⟨?_, ?_, ?_, ?_⟩
  · rw [hs]
    simp only [computeHealthScore]
    rw [mathRoundR_clamp]
    ring_nf
  · rw [hst]
    exact (scoreToStatus_iff _).1
  · rw [hst]
    exact (scoreToStatus_iff _).2.1
  · rw [hst]
    exact (scoreToStatus_iff _).2.2

/-- C8: the exposed token-utilization percentage is the one-decimal
rounding of tokenCount over dangerZone, max_effective is the danger
zone, not maxTokens, and the percentage exceeds 100 for token counts
past the danger zone (claude-opus-4 at 195000 tokens gives 114.7). -/
theorem c8_token_utilization :
    (∀ (input : AssessmentInput) (profile : ModelProfile),
      (assessHealth input profile).token_utilization.percentage =
        (mathRound (input.tokenCount / profile.dangerZone * 1000) : ℚ) / 10 ∧
      (assessHealth input profile).token_utilization.max_effective =
        profile.dangerZone) ∧
    100 < (assessHealth { tokenCount := 195000, model := "claude-opus-4" }
      (getModelProfile ("claude-opus-4"))).token_utilization.percentage := by
  constructor
  · intro input profile
    exact ⟨rfl, rfl⟩
  · have h : (assessHealth { tokenCount := 195000, model := "claude-opus-4" }
        (getModelProfile ("claude-opus-4"))).token_utilization.percentage =
        (mathRound ((195000:ℚ) / 170000 * 1000) : ℚ) / 10 := rfl
    rw [h]
    norm_num [mathRound]

end ContextRot
